import Mathlib

/-!
Shallow embedding of the atlas_v7 decision core.

Numeric model: Python floats are idealised as exact rationals (`ℚ`), Python
ints as `ℤ`.  `int(x)` is truncation toward zero (`pytrunc`), `round(x, 1)`
is round-half-to-even at one decimal (`pyround1`), `"%.2f"` formatting is
`fmt2`.  Code that can raise an exception is modelled with `Option`/`Except`.
The transcendental primitives (`sqrt`, `log`) that some indicator columns use
are passed to `IndicatorEngine.calculate` as explicit function parameters, so
every theorem below quantifies over them.
-/

namespace Atlas

/-- `clamp` from the source modules: `max(lo, min(hi, x))`. -/
def clamp (x lo hi : ℚ) : ℚ := max lo (min hi x)

/-- Python `int()` on a float: truncation toward zero.  (`Rat.floor` is used
rather than `⌊·⌋` so that concrete instances reduce by `decide`; they agree
by `Rat.floor_def'`.) -/
def pytrunc (q : ℚ) : ℤ := if 0 ≤ q then q.floor else -((-q).floor)

/-- Round half to even to an integer (Python `round(x)` idealised on exact
rationals). -/
def pyround0 (q : ℚ) : ℤ :=
  let f : ℤ := q.floor
  let r : ℚ := q - f
  if r < 1/2 then f
  else if 1/2 < r then f + 1
  else if f % 2 = 0 then f else f + 1

/-- Python `round(x, 1)` idealised on exact rationals. -/
def pyround1 (q : ℚ) : ℚ := (pyround0 (q * 10) : ℚ) / 10

/-- Python `f"{x:.2f}"` idealised on exact rationals: sign, integer part and
two decimal digits after rounding the value to hundredths. -/
def fmt2 (q : ℚ) : String :=
  let c : ℤ := pyround0 (q * 100)
  let n : ℕ := c.natAbs
  let frac : ℕ := n % 100
  (if c < 0 then "-" else "")
    ++ toString (n / 100) ++ "."
    ++ (if frac < 10 then "0" else "") ++ toString frac

/-- Python `str.upper()`: uppercase each character. -/
def pyUpper (s : String) : String := ⟨s.data.map Char.toUpper⟩

/-- Python `needle in haystack` on strings: substring containment. -/
def subAt : List Char → List Char → Bool
  | _, [] => false
  | pat, c :: rest => pat.isPrefixOf (c :: rest) || subAt pat rest

/-- `pat ∈ hay` for strings (a nonempty scan plus the empty-pattern case). -/
def strContains (hay pat : String) : Bool :=
  pat.toList.isPrefixOf hay.toList || subAt pat.toList hay.toList

/-! ## CostEngine (src/core/logic/costs.py) -/

/-- Result dictionary of `CostEngine.compute`. -/
structure CostBreakdown where
  total_bps : ℤ
  blocked : Bool
  max_block : ℤ
  break_even_pct : ℚ
  deriving Repr, DecidableEq

namespace CostEngine

/-- `CostEngine.compute`: totals the three cost components, flags the block
at the inclusive `max_block_bps` boundary, derives the break-even fraction. -/
def compute (spread_bps slippage_bps fee_bps max_block_bps : ℤ) : CostBreakdown :=
  let total : ℤ := spread_bps + slippage_bps + fee_bps
  { total_bps := total
    blocked := decide (total ≥ max_block_bps)
    max_block := max_block_bps
    break_even_pct := (total : ℚ) / 10000 }

end CostEngine

/-! ## RegimeEngine (src/core/logic/regimes.py, lines 39-44) -/

namespace RegimeEngine

/-- The operability score of `RegimeEngine.analyze` (lines 39-44): start at
75 and subtract `int(abs(z)*7)`, `int(max(0, vol-25))`, `int(abs(dd)*120)`,
`int(cost_bps*0.8)`, then `int(clamp(score, 0, 100))`. -/
def operability (z vol dd : ℚ) (cost_bps : ℤ) : ℤ :=
  let score : ℤ := 75
  let score : ℤ := score - pytrunc (|z| * 7)
  let score : ℤ := score - pytrunc (max 0 (vol - 25))
  let score : ℤ := score - pytrunc (|dd| * 120)
  let score : ℤ := score - pytrunc ((cost_bps : ℚ) * (8/10))
  pytrunc (Atlas.clamp (score : ℚ) 0 100)

/-- Modelled from the spec wording of §4.3 for comparison with the code:
"start at 75; subtract 7×|z|; subtract max(0, VolAnn−25); subtract
120×|Drawdown|; subtract 0.8×cost_bps; truncate to integer after each
subtraction; clamp to [0,100]" — i.e. the running score itself is truncated
after every subtraction. -/
def specOperability (z vol dd : ℚ) (cost_bps : ℤ) : ℤ :=
  let s1 : ℤ := pytrunc ((75 : ℚ) - |z| * 7)
  let s2 : ℤ := pytrunc ((s1 : ℚ) - max 0 (vol - 25))
  let s3 : ℤ := pytrunc ((s2 : ℚ) - |dd| * 120)
  let s4 : ℤ := pytrunc ((s3 : ℚ) - (cost_bps : ℚ) * (8/10))
  pytrunc (Atlas.clamp (s4 : ℚ) 0 100)

/-- The amended operability procedure: each subtracted term is truncated
toward zero before the subtraction (so the running score stays an integer
throughout and is not itself re-truncated), then the integer result is
clamped to [0,100]. -/
def amendedOperability (z vol dd : ℚ) (cost_bps : ℤ) : ℤ :=
  let s1 : ℤ := 75 - pytrunc (7 * |z|)
  let s2 : ℤ := s1 - pytrunc (max 0 (vol - 25))
  let s3 : ℤ := s2 - pytrunc (120 * |dd|)
  let s4 : ℤ := s3 - pytrunc ((8/10 : ℚ) * (cost_bps : ℚ))
  max 0 (min 100 s4)

end RegimeEngine

/-! ## ScoreEngine (src/core/logic/scores.py) -/

/-- The fields of the latest indicator row that the score functions read
(`last["close_final"]`, `last["SMA20"]`, …; `last.get("VaR95", 0.0)` and
`last.get("CVaR95", 0.0)` default to 0 when absent, so the fields hold the
value that `float(...)` produces). -/
structure LastRow where
  close_final : ℚ
  SMA20 : ℚ
  SMA50 : ℚ
  ZScore : ℚ
  VolAnn : ℚ
  Drawdown : ℚ
  VaR95 : ℚ
  CVaR95 : ℚ
  deriving Repr, DecidableEq

/-- The `weights` dictionary read by `ScoreEngine.multi`. -/
structure Weights where
  trend : ℚ
  meanrev : ℚ
  risk : ℚ
  deriving Repr, DecidableEq

/-- Result dictionary of `ScoreEngine.multi`. -/
structure ScoreBreakdown where
  final_score : ℚ
  trend_score : ℚ
  meanrev_score : ℚ
  risk_score : ℚ
  deriving Repr, DecidableEq

namespace ScoreEngine

/-- `ScoreEngine.trend_score`.  The two SMA20 history points it reads,
`d["SMA20"].iloc[-1]` and `d["SMA20"].iloc[-6]`, are passed as
`sma20_last` and `sma20_prev6`. -/
def trend_score (last : LastRow) (sma20_last sma20_prev6 : ℚ) : ℚ :=
  let close := last.close_final
  let sma20 := last.SMA20
  let sma50 := last.SMA50
  let slope := (sma20_last - sma20_prev6) / (|sma20_prev6| + 1/1000000000)
  let base : ℚ := 50
  let base := if sma20 > sma50 ∧ close > sma20 then base + 25 else base
  let base := if sma20 < sma50 ∧ close < sma20 then base - 20 else base
  let slope_score := Atlas.clamp (50 + Atlas.clamp (slope * 450) (-3) 3 * 15) 0 100
  Atlas.clamp (base * (55/100) + slope_score * (45/100)) 0 100

/-- `ScoreEngine.meanrev_score`. -/
def meanrev_score (last : LastRow) : ℚ :=
  let z := last.ZScore
  Atlas.clamp (50 + (-z * 18) - max 0 (z - 1) * 12) 0 100

/-- `ScoreEngine.risk_score`. -/
def risk_score (last : LastRow) : ℚ :=
  let vol := last.VolAnn
  let dd := last.Drawdown
  let var95 := last.VaR95
  let cvar95 := last.CVaR95
  let v_pen := Atlas.clamp ((vol - 20) * (19/10)) 0 80
  let dd_pen := Atlas.clamp (|dd| * 180) 0 80
  let tail_pen := Atlas.clamp (|cvar95| * 650) 0 80 + Atlas.clamp (|var95| * 500) 0 60
  Atlas.clamp (100 - (v_pen * (45/100) + dd_pen * (35/100) + tail_pen * (20/100))) 0 100

/-- `ScoreEngine.multi`.  The division of each weight by `wsum` raises
`ZeroDivisionError` in Python when the weight sum is zero; that failure is
modelled as `none`.  There is no other validation of the weights. -/
def multi (last : LastRow) (sma20_last sma20_prev6 : ℚ) (cost_bps : ℤ)
    (regime_label : String) (weights : Weights) : Option ScoreBreakdown :=
  let ts := trend_score last sma20_last sma20_prev6
  let mr := meanrev_score last
  let rk := risk_score last
  let wsum := weights.trend + weights.meanrev + weights.risk
  if wsum = 0 then none
  else
    let raw := ts * (weights.trend / wsum) + mr * (weights.meanrev / wsum)
      + rk * (weights.risk / wsum)
    let p_cost := Atlas.clamp ((cost_bps : ℚ) * (28/10)) 0 80
    let p_reg : ℚ :=
      if strContains regime_label "STRESS" then 45
      else if strContains regime_label "VOL" then 25 else 0
    let final := Atlas.clamp (raw - (p_cost * (55/100) + p_reg * (45/100))) 0 100
    some { final_score := pyround1 final
           trend_score := pyround1 ts
           meanrev_score := pyround1 mr
           risk_score := pyround1 rk }

end ScoreEngine

/-! ## VerdictEngine (src/core/logic/verdict.py) -/

/-- The regime dictionary fields read by `VerdictEngine.decide`
(`label`, `vol`, `dd`, and the operability score under the key `score`). -/
structure RegimeDict where
  label : String
  vol : ℚ
  dd : ℚ
  score : ℚ
  deriving Repr, DecidableEq

/-- Result dictionary of `VerdictEngine.decide`. -/
structure Verdict where
  status : String
  command : String
  reasons : List String
  deriving Repr, DecidableEq

namespace VerdictEngine

/-- `VerdictEngine.decide`: the sequential rule cascade, with the state
variables `status` and `reasons` threaded through the eight `if` blocks
exactly as in the source. -/
def decide (regime : RegimeDict) (cost_blocked : Bool) (ruin_pct score : ℚ)
    (strict_vol strict_dd_pct ruin_threshold : ℚ) : Verdict :=
  let status := "AUTORIZADO"
  let reasons : List String := []
  let (status, reasons) :=
    if cost_blocked then ("BLOQUEIO", reasons ++ ["COST_BLOCK"])
    else (status, reasons)
  let (status, reasons) :=
    if strContains regime.label "STRESS" then
      ((if status ≠ "BLOQUEIO" then "DEFENSIVO" else status),
       reasons ++ ["REGIME_STRESS"])
    else (status, reasons)
  let (status, reasons) :=
    if strContains regime.label "VOL" then
      ((if status ≠ "BLOQUEIO" then "DEFENSIVO" else status),
       reasons ++ ["REGIME_VOL"])
    else (status, reasons)
  let (status, reasons) :=
    if regime.vol > strict_vol then
      ((if status ≠ "BLOQUEIO" then "DEFENSIVO" else status),
       reasons ++ ["VOL_LIMIT"])
    else (status, reasons)
  let (status, reasons) :=
    if regime.dd * 100 < strict_dd_pct then
      ((if status ≠ "BLOQUEIO" then "DEFENSIVO" else status),
       reasons ++ ["DD_LIMIT"])
    else (status, reasons)
  let (status, reasons) :=
    if ruin_pct > ruin_threshold then
      ((if status ≠ "BLOQUEIO" then "DEFENSIVO" else status),
       reasons ++ ["RUIN_HIGH"])
    else (status, reasons)
  let (status, reasons) :=
    if regime.score < 35 ∧ status ≠ "BLOQUEIO" then
      ("DEFENSIVO", reasons ++ ["OPERABILITY_LOW"])
    else (status, reasons)
  let (status, reasons) :=
    if score < 40 ∧ status ≠ "BLOQUEIO" then
      ("DEFENSIVO", reasons ++ ["SCORE_LOW"])
    else (status, reasons)
  let command :=
    if status = "AUTORIZADO" then "READY"
    else if status = "DEFENSIVO" then "DEFENSIVE" else "BLOCKED"
  { status := status, command := command
    reasons := if reasons = [] then ["OK"] else reasons }

/-- Closed-form reference verdict for the amended cascade claim: the final
status depends only on which triggers hold (cost block dominates, any other
trigger yields DEFENSIVO), the reasons of rules 1-6 accumulate regardless of
the status already reached, and the rules 7-8 reasons (`OPERABILITY_LOW`,
`SCORE_LOW`) are recorded only when the status is not BLOQUEIO. -/
def amendedVerdict (regime : RegimeDict) (cost_blocked : Bool)
    (ruin_pct score strict_vol strict_dd_pct ruin_threshold : ℚ) : Verdict :=
  let defensive : Bool :=
    strContains regime.label "STRESS" || strContains regime.label "VOL" ||
    Decidable.decide (regime.vol > strict_vol) ||
    Decidable.decide (regime.dd * 100 < strict_dd_pct) ||
    Decidable.decide (ruin_pct > ruin_threshold) ||
    Decidable.decide (regime.score < 35) ||
    Decidable.decide (score < 40)
  let status :=
    if cost_blocked then "BLOQUEIO"
    else if defensive then "DEFENSIVO" else "AUTORIZADO"
  let reasons :=
    (if cost_blocked then ["COST_BLOCK"] else []) ++
    (if strContains regime.label "STRESS" then ["REGIME_STRESS"] else []) ++
    (if strContains regime.label "VOL" then ["REGIME_VOL"] else []) ++
    (if regime.vol > strict_vol then ["VOL_LIMIT"] else []) ++
    (if regime.dd * 100 < strict_dd_pct then ["DD_LIMIT"] else []) ++
    (if ruin_pct > ruin_threshold then ["RUIN_HIGH"] else []) ++
    (if regime.score < 35 ∧ cost_blocked = false then ["OPERABILITY_LOW"] else []) ++
    (if score < 40 ∧ cost_blocked = false then ["SCORE_LOW"] else [])
  { status := status
    command :=
      if status = "AUTORIZADO" then "READY"
      else if status = "DEFENSIVO" then "DEFENSIVE" else "BLOCKED"
    reasons := if reasons = [] then ["OK"] else reasons }

end VerdictEngine

/-! ## RiskEngine (src/core/logic/risk.py) -/

namespace RiskEngine

/-- Cumulative sums of a trade P&L sequence (`pnl.cumsum(axis=1)` applied to
one simulated row). -/
def cumsum : List ℚ → ℚ → List ℚ
  | [], _ => []
  | x :: xs, acc => (acc + x) :: cumsum xs (acc + x)

/-- One simulated sequence is "ruined" when its cumulative equity path ever
drops below −0.50 (`(equity < -0.50).any(axis=1)` for that row). -/
def ruined (payoff risk_per_trade : ℚ) (row : List Bool) : Bool :=
  let pnl := row.map (fun w => if w then payoff * risk_per_trade else -risk_per_trade)
  (cumsum pnl 0).any (fun e => decide (e < -(1/2)))

/-- `RiskEngine.monte_carlo_ruin`.  The Bernoulli draw
`np.random.choice([1, 0], size=(sims, trades), p=[win_rate, 1-win_rate])` is
the only random step; the drawn outcome matrix is passed explicitly as
`outcomes` (one list per simulated sequence, `true` = winning trade), so the
rest of the computation is the deterministic part of the source.  Returns the
clamped parameters together with `float(ruin.mean() * 100)`. -/
def monte_carlo_ruin (win_rate payoff risk_per_trade : ℚ)
    (outcomes : List (List Bool)) : ℚ × ℚ × ℚ × ℚ :=
  let win_rate := Atlas.clamp win_rate (1/100) (99/100)
  let payoff := Atlas.clamp payoff (1/2) 10
  let risk_per_trade := Atlas.clamp risk_per_trade (1/1000) (2/10)
  let ruinCount : ℕ := (outcomes.filter (ruined payoff risk_per_trade)).length
  (win_rate, payoff, risk_per_trade,
    ((ruinCount : ℚ) / (outcomes.length : ℚ)) * 100)

end RiskEngine

/-! ## SQLiteStore.daily_realized_pnl (src/database/sqlite_store.py) and
SafetyGuard (src/core/execution/safety_guard.py) -/

/-- One ledger row, reduced to the two columns `daily_realized_pnl` reads:
`timestamp_utc` and `realized_pnl`. -/
structure LedgerEntry where
  timestamp_utc : String
  realized_pnl : ℚ
  deriving Repr, DecidableEq

namespace SQLiteStore

/-- `SQLiteStore.daily_realized_pnl`: `COALESCE(SUM(realized_pnl), 0.0)` over
the ledger rows whose `substr(timestamp_utc, 1, 10)` equals the date. -/
def daily_realized_pnl (ledger : List LedgerEntry) (date_utc : String) : ℚ :=
  ((ledger.filter (fun e => (e.timestamp_utc.take 10) = date_utc)).map
    (·.realized_pnl)).sum

end SQLiteStore

/-- `SafetyConfig` (frozen dataclass).  The five `"HH:MM"` strings are
modelled already parsed as (hour, minute) pairs — `_parse_hhmm` is the
plumbing `(int(h), int(m))` after splitting on `":"`, applied to every field
before use, and no claim concerns malformed time strings. -/
structure SafetyConfig where
  tz_market : String
  open_hhmm : ℕ × ℕ
  close_hhmm : ℕ × ℕ
  auction_pre_open_start : ℕ × ℕ
  auction_pre_open_end : ℕ × ℕ
  auction_close_start : ℕ × ℕ
  auction_close_end : ℕ × ℕ
  max_daily_loss_pct : ℚ
  deriving Repr, DecidableEq

/-- Market-local wall-clock instant, as the fields `_in_range` compares after
`now.replace(second=0, microsecond=0)` on the bounds: hour, minute, second
(sub-minute precision only matters for `now` itself). -/
structure ClockTime where
  hour : ℕ
  minute : ℕ
  second : ℕ
  deriving Repr, DecidableEq

/-- The broker state `SafetyGuard` observes: `ping()` and the `ticker` field
of each dictionary in `get_open_positions()` (after `str(...)`). -/
structure BrokerState where
  ping : Bool
  open_position_tickers : List String
  deriving Repr, DecidableEq

/-- Result dictionary of `SafetyGuard.validate`. -/
structure SafetyResult where
  ok : Bool
  reason : String
  deriving Repr, DecidableEq

namespace SafetyGuard

/-- Seconds after local midnight, used to compare `st <= now <= en`. -/
def secondsOfDay (h m s : ℕ) : ℕ := h * 3600 + m * 60 + s

/-- `SafetyGuard._in_range`: bounds at second 0 of the parsed hour/minute on
the current day, inclusive on both ends. -/
def in_range (now : ClockTime) (start stop : ℕ × ℕ) : Bool :=
  let t := secondsOfDay now.hour now.minute now.second
  decide (secondsOfDay start.1 start.2 0 ≤ t ∧ t ≤ secondsOfDay stop.1 stop.2 0)

/-- `SafetyGuard._is_trading_time`: auction blackouts first, then the main
session window. -/
def is_trading_time (cfg : SafetyConfig) (now : ClockTime) : Bool × String :=
  if in_range now cfg.auction_pre_open_start cfg.auction_pre_open_end then
    (false, "AUCTION_PRE_OPEN")
  else if in_range now cfg.auction_close_start cfg.auction_close_end then
    (false, "AUCTION_CLOSE")
  else if !(in_range now cfg.open_hhmm cfg.close_hhmm) then
    (false, "OUTSIDE_MARKET_HOURS")
  else (true, "OK")

/-- `SafetyGuard._kill_switch`: deny when today's realized P&L is at or below
`-(capital * max_daily_loss_pct / 100)`, embedding both figures in the
reason. `today_utc` is `datetime.utcnow().strftime("%Y-%m-%d")`. -/
def kill_switch (cfg : SafetyConfig) (ledger : List LedgerEntry)
    (today_utc : String) (capital : ℚ) : Bool × String :=
  let pnl := SQLiteStore.daily_realized_pnl ledger today_utc
  let lim := -(capital * (cfg.max_daily_loss_pct / 100))
  if pnl ≤ lim then
    (false, "KILL_SWITCH_DAILY_LOSS pnl=" ++ fmt2 pnl ++ " limit=" ++ fmt2 lim)
  else (true, "OK")

/-- `SafetyGuard._position_check`: deny when any open position's ticker
matches the order's ticker case-insensitively. -/
def position_check (broker : BrokerState) (ticker : String) : Bool × String :=
  if broker.open_position_tickers.any (fun p => pyUpper p = pyUpper ticker) then
    (false, "POSITION_ALREADY_OPEN")
  else (true, "OK")

/-- `SafetyGuard.validate`: the four checks in source order, short-circuiting
on the first failure. -/
def validate (broker : BrokerState) (cfg : SafetyConfig) (now : ClockTime)
    (ledger : List LedgerEntry) (today_utc : String) (order_ticker : String)
    (capital : ℚ) : SafetyResult :=
  if !broker.ping then { ok := false, reason := "BROKER_OFFLINE" }
  else
    let (ok_time, r_time) := is_trading_time cfg now
    if !ok_time then { ok := false, reason := r_time }
    else
      let (ok_pos, r_pos) := position_check broker order_ticker
      if !ok_pos then { ok := false, reason := r_pos }
      else
        let (ok_kill, r_kill) := kill_switch cfg ledger today_utc capital
        if !ok_kill then { ok := false, reason := r_kill }
        else { ok := true, reason := "OK" }

end SafetyGuard

/-! ## IndicatorEngine (src/core/logic/indicators.py)

Columns are modelled as functions `ℕ → Option ℚ` over the row index, with
`none` standing for NaN (a missing value inside the warm-up window of a
rolling computation).  Rolling windows follow pandas defaults: a fixed
window of `w` produces a value only when the window is complete and every
entry in it is non-NaN (`min_periods = w`), so `rolling(w).apply(f)` never
invokes `f` on a window containing NaN.  The square root (used by `std`,
`VolAnn` and scipy's skew) and `np.log` are irrational-valued; they enter as
the explicit parameters `sqrtA` and `logA`. -/

/-- The error raised when the `close_final` column is missing from the input
frame (a `KeyError` in the code; the spec's DataError taxonomy). -/
inductive DataError where
  | missing_close_column
  deriving Repr, DecidableEq

/-- Input frame: the six columns produced by the data router.  `close_final`
is optional at the frame level — its absence makes `calculate` fail.  Base
column values are taken non-null (§3 bar invariant). -/
structure BarFrame where
  opn : List ℚ
  high : List ℚ
  low : List ℚ
  close : List ℚ
  volume : List ℚ
  close_final : Option (List ℚ)

/-- One output row of `IndicatorEngine.calculate`: the base columns plus
every derived column.  `Equity`, `Peak` and `Drawdown` are total (the only
NaN feeding them is removed by `ret.fillna(0)`); the other derived columns
carry their warm-up NaN as `none`. -/
structure IndRow where
  opn : ℚ
  high : ℚ
  low : ℚ
  close : ℚ
  close_final : ℚ
  volume : ℚ
  ret : Option ℚ
  logret : Option ℚ
  SMA20 : Option ℚ
  SMA50 : Option ℚ
  STD20 : Option ℚ
  ZScore : Option ℚ
  RSI14 : Option ℚ
  ATR14 : Option ℚ
  Equity : ℚ
  Peak : ℚ
  Drawdown : ℚ
  VolAnn : Option ℚ
  Skew60 : Option ℚ
  Kurt60 : Option ℚ
  VaR95 : Option ℚ
  CVaR95 : Option ℚ

namespace IndicatorEngine

/-- Arithmetic mean. -/
def mean (xs : List ℚ) : ℚ := xs.sum / (xs.length : ℚ)

/-- Sample variance (`ddof = 1`, the pandas `std` default, squared). -/
def varSamp (xs : List ℚ) : ℚ :=
  let m := mean xs
  ((xs.map (fun x => (x - m) ^ 2)).sum) / ((xs.length : ℚ) - 1)

/-- k-th central moment with the biased 1/n normalisation (scipy default). -/
def centralMoment (k : ℕ) (xs : List ℚ) : ℚ :=
  let m := mean xs
  mean (xs.map (fun x => (x - m) ^ k))

/-- Insertion into an ascending list. -/
def insertAsc (x : ℚ) : List ℚ → List ℚ
  | [] => [x]
  | y :: ys => if x ≤ y then x :: y :: ys else y :: insertAsc x ys

/-- Ascending insertion sort. -/
def sortAsc : List ℚ → List ℚ
  | [] => []
  | x :: xs => insertAsc x (sortAsc xs)

/-- `np.quantile(x, 0.05)` with the default linear interpolation. -/
def quantile05 (xs : List ℚ) : ℚ :=
  let s := sortAsc xs
  let h : ℚ := ((s.length : ℚ) - 1) * (5/100)
  let lo : ℕ := (⌊h⌋).toNat
  let lov := s.getD lo 0
  let hiv := s.getD (lo + 1) lov
  lov + (h - (lo : ℚ)) * (hiv - lov)

/-- The inner `_var95` passed to `rolling(60).apply`: with the pandas
`min_periods` default its window never contains NaN, so the `dropna` is the
identity and the `len < 10` guard is translated as written but unreachable
from `calculate`. -/
def var95fn (xs : List ℚ) : Option ℚ :=
  if xs.length < 10 then none else some (quantile05 xs)

/-- The inner `_cvar95` passed to `rolling(60).apply` (same remark). -/
def cvar95fn (xs : List ℚ) : Option ℚ :=
  if xs.length < 10 then none
  else
    let v := quantile05 xs
    let tail := xs.filter (fun x => x ≤ v)
    if 0 < tail.length then some (mean tail) else none

/-- `col.rolling(w).apply(f)` with pandas defaults: a value appears only
when the window is complete and free of NaN. -/
def rollingApply (w : ℕ) (f : List ℚ → Option ℚ) (col : ℕ → Option ℚ)
    (i : ℕ) : Option ℚ :=
  if w ≤ i + 1 then
    let window := (List.range w).map (fun j => col (i + 1 - w + j))
    if window.all (·.isSome) then f (window.filterMap id) else none
  else none

/-- Rolling aggregation by a total function (`mean`, `std`, …). -/
def roll (w : ℕ) (f : List ℚ → ℚ) (col : ℕ → Option ℚ) (i : ℕ) : Option ℚ :=
  rollingApply w (fun xs => some (f xs)) col i

/-- Cumulative product with accumulator (`(1 + ret).cumprod()`). -/
def cumprod : List ℚ → ℚ → List ℚ
  | [], _ => []
  | x :: xs, acc => (acc * x) :: cumprod xs (acc * x)

/-- Running maximum continuing from an accumulator. -/
def cummaxFrom (acc : ℚ) : List ℚ → List ℚ
  | [] => []
  | x :: xs => max acc x :: cummaxFrom (max acc x) xs

/-- `Series.cummax()`. -/
def cummax : List ℚ → List ℚ
  | [] => []
  | x :: xs => x :: cummaxFrom x xs

/-- The `close_final` column as an indexed series. -/
def closeCol (closes : List ℚ) (i : ℕ) : Option ℚ :=
  if i < closes.length then some (closes.getD i 0) else none

/-- `close.pct_change()`: NaN on the first row. -/
def retF (closes : List ℚ) (i : ℕ) : Option ℚ :=
  if i = 0 ∨ closes.length ≤ i then none
  else some (closes.getD i 0 / closes.getD (i - 1) 0 - 1)

/-- `np.log(close / close.shift(1))`. -/
def logretF (logA : ℚ → ℚ) (closes : List ℚ) (i : ℕ) : Option ℚ :=
  if i = 0 ∨ closes.length ≤ i then none
  else some (logA (closes.getD i 0 / closes.getD (i - 1) 0))

/-- `close.diff()`. -/
def deltaF (closes : List ℚ) (i : ℕ) : Option ℚ :=
  if i = 0 ∨ closes.length ≤ i then none
  else some (closes.getD i 0 - closes.getD (i - 1) 0)

/-- True Range: `.max(axis=1)` skips NaN, so on the first row only
`high - low` survives. -/
def trF (highs lows closes : List ℚ) (i : ℕ) : ℚ :=
  let h := highs.getD i 0
  let l := lows.getD i 0
  if i = 0 then h - l
  else
    let pc := closes.getD (i - 1) 0
    max (h - l) (max |h - pc| |l - pc|)

/-- `ret.fillna(0)` as a materialised list (only index 0 is NaN). -/
def retFill (closes : List ℚ) : List ℚ :=
  (List.range closes.length).map (fun i =>
    if i = 0 then 0 else closes.getD i 0 / closes.getD (i - 1) 0 - 1)

/-- `Equity = (1 + ret.fillna(0)).cumprod()`. -/
def equityList (closes : List ℚ) : List ℚ :=
  cumprod ((retFill closes).map (fun r => 1 + r)) 1

/-- `Peak = Equity.cummax()`. -/
def peakList (closes : List ℚ) : List ℚ := cummax (equityList closes)

/-- `Drawdown = (Equity - Peak) / Peak`, row-wise. -/
def drawdownF (closes : List ℚ) (i : ℕ) : ℚ :=
  ((equityList closes).getD i 0 - (peakList closes).getD i 0)
    / (peakList closes).getD i 0

/-- A row survives `dropna()` only when every NaN-able column is present. -/
def rowComplete (r : IndRow) : Bool :=
  r.ret.isSome && r.logret.isSome && r.SMA20.isSome && r.SMA50.isSome &&
  r.STD20.isSome && r.ZScore.isSome && r.RSI14.isSome && r.ATR14.isSome &&
  r.VolAnn.isSome && r.Skew60.isSome && r.Kurt60.isSome &&
  r.VaR95.isSome && r.CVaR95.isSome

/-- Row `i` of the augmented frame, before `dropna()`. -/
def mkRow (sqrtA logA : ℚ → ℚ) (df : BarFrame) (closes : List ℚ)
    (i : ℕ) : IndRow :=
  let cc := closeCol closes
  let sma20 := roll 20 mean cc
  let std20 := roll 20 (fun xs => sqrtA (varSamp xs)) cc
  let gain := roll 14 mean (fun j => (deltaF closes j).map (fun d => max d 0))
  let loss := roll 14 mean (fun j => (deltaF closes j).map (fun d => max (-d) 0))
  { opn := df.opn.getD i 0
    high := df.high.getD i 0
    low := df.low.getD i 0
    close := df.close.getD i 0
    close_final := closes.getD i 0
    volume := df.volume.getD i 0
    ret := retF closes i
    logret := logretF logA closes i
    SMA20 := sma20 i
    SMA50 := roll 50 mean cc i
    STD20 := std20 i
    ZScore := (sma20 i).bind (fun m => (std20 i).map (fun s =>
      (closes.getD i 0 - m) / (s + 1/1000000000)))
    RSI14 := (gain i).bind (fun g => (loss i).map (fun l =>
      100 - 100 / (1 + g / (l + 1/1000000000))))
    ATR14 := roll 14 mean (fun j =>
      if j < closes.length then some (trF df.high df.low closes j) else none) i
    Equity := (equityList closes).getD i 0
    Peak := (peakList closes).getD i 0
    Drawdown := drawdownF closes i
    VolAnn := (roll 20 (fun xs => sqrtA (varSamp xs)) (logretF logA closes) i).map
      (fun s => s * sqrtA 252 * 100)
    Skew60 := roll 60 (fun xs =>
      let m2 := centralMoment 2 xs
      centralMoment 3 xs / (m2 * sqrtA m2)) (retF closes) i
    Kurt60 := roll 60 (fun xs =>
      centralMoment 4 xs / (centralMoment 2 xs) ^ 2 - 3) (retF closes) i
    VaR95 := rollingApply 60 var95fn (retF closes) i
    CVaR95 := rollingApply 60 cvar95fn (retF closes) i }

/-- `IndicatorEngine.calculate`: fails when the `close_final` column is
absent (`d["close_final"]` raises); otherwise derives every column and drops
the incomplete rows (`d.dropna()`). -/
def calculate (sqrtA logA : ℚ → ℚ) (df : BarFrame) :
    Except DataError (List IndRow) :=
  match df.close_final with
  | none => .error DataError.missing_close_column
  | some closes =>
    .ok (((List.range closes.length).map (mkRow sqrtA logA df closes)).filter
      rowComplete)

end IndicatorEngine

end Atlas

open Atlas

/-! ## General lemmas about the numeric helpers -/

theorem ratFloor_eq_floor (q : ℚ) : q.floor = ⌊q⌋ := by
  rw [Rat.floor_def', Rat.floor_def]

theorem pytrunc_eq_floor_or_ceil (q : ℚ) :
    pytrunc q = if 0 ≤ q then ⌊q⌋ else -⌊-q⌋ := by
  unfold pytrunc
  rw [Rat.floor_def', Rat.floor_def', Rat.floor_def, Rat.floor_def]

theorem pytrunc_nonneg {q : ℚ} (h : 0 ≤ q) : 0 ≤ pytrunc q := by
  rw [pytrunc_eq_floor_or_ceil]
  simp only [if_pos h]
  exact Int.floor_nonneg.mpr h

theorem pytrunc_le_of_le {q : ℚ} {n : ℤ} (h0 : 0 ≤ q) (h : q ≤ (n : ℚ)) :
    pytrunc q ≤ n := by
  rw [pytrunc_eq_floor_or_ceil]
  simp only [if_pos h0]
  exact le_trans (Int.floor_le_floor h) (le_of_eq (Int.floor_intCast n))

theorem pytrunc_intCast (n : ℤ) : pytrunc ((n : ℤ) : ℚ) = n := by
  rw [pytrunc_eq_floor_or_ceil]
  by_cases h : (0 : ℚ) ≤ (n : ℚ)
  · simp [h, Int.floor_intCast]
  · rw [if_neg h, ← Int.cast_neg, Int.floor_intCast, neg_neg]

theorem clamp_mem {x lo hi : ℚ} (h : lo ≤ hi) :
    lo ≤ clamp x lo hi ∧ clamp x lo hi ≤ hi := by
  unfold clamp
  constructor
  · exact le_max_left _ _
  · exact max_le h (min_le_left _ _)

theorem clamp_le_of_le {x lo hi b : ℚ} (hlo : lo ≤ b) (hx : x ≤ b) :
    clamp x lo hi ≤ b := by
  unfold clamp
  exact max_le hlo ((min_le_right _ _).trans hx)

/-! ## C6: CostEngine.compute -/

/-- Claim C6: for all integer inputs, `CostEngine.compute` returns
`total_bps = spread + slippage + fee`, `break_even_pct = total_bps/10000`,
and `blocked = (total_bps ≥ max_block_bps)` with the boundary inclusive;
the computation is pure (a function of its arguments) and monotonic
non-decreasing in each of spread, slippage and fee. -/
theorem C6_cost_compute (s l f m : ℤ) :
    (CostEngine.compute s l f m).total_bps = s + l + f ∧
    (CostEngine.compute s l f m).break_even_pct = ((s + l + f : ℤ) : ℚ) / 10000 ∧
    ((CostEngine.compute s l f m).blocked = true ↔ m ≤ s + l + f) ∧
    (s + l + f = m → (CostEngine.compute s l f m).blocked = true) ∧
    (∀ s₂, s ≤ s₂ →
      (CostEngine.compute s l f m).total_bps ≤ (CostEngine.compute s₂ l f m).total_bps ∧
      (CostEngine.compute s l f m).break_even_pct ≤ (CostEngine.compute s₂ l f m).break_even_pct ∧
      ((CostEngine.compute s l f m).blocked = true → (CostEngine.compute s₂ l f m).blocked = true)) ∧
    (∀ l₂, l ≤ l₂ →
      (CostEngine.compute s l f m).total_bps ≤ (CostEngine.compute s l₂ f m).total_bps ∧
      (CostEngine.compute s l f m).break_even_pct ≤ (CostEngine.compute s l₂ f m).break_even_pct ∧
      ((CostEngine.compute s l f m).blocked = true → (CostEngine.compute s l₂ f m).blocked = true)) ∧
    (∀ f₂, f ≤ f₂ →
      (CostEngine.compute s l f m).total_bps ≤ (CostEngine.compute s l f₂ m).total_bps ∧
      (CostEngine.compute s l f m).break_even_pct ≤ (CostEngine.compute s l f₂ m).break_even_pct ∧
      ((CostEngine.compute s l f m).blocked = true → (CostEngine.compute s l f₂ m).blocked = true)) := by
  unfold CostEngine.compute
  refine ⟨rfl, rfl, by simp [ge_iff_le], fun h => by simp [h.ge], ?_, ?_, ?_⟩ <;>
  · intro x hx
    refine ⟨by simpa using by omega, ?_, ?_⟩
    · apply div_le_div_of_nonneg_right ?_ (by norm_num)
      exact_mod_cast by omega
    · simp only [decide_eq_true_eq, ge_iff_le]
      omega

/-- Witness for C6 at the spec's Scenario C numbers: spread=20, slippage=20,
fee=10, max_block_bps=40, so the boundary-inclusive block fires. -/
theorem C6_cost_compute_witness :
    (20 + 10 + 10 : ℤ) = 40 ∧ (CostEngine.compute 20 10 10 40).blocked = true :=
  ⟨by decide, (C6_cost_compute 20 10 10 40).2.2.2.1 (by decide)⟩

/-! ## C9: operability never exceeds its 75 starting value -/

/-- Claim C9: for every indicator input and non-negative `cost_bps`, the
operability score is at most 75 — each subtracted term is a non-negative
integer, so the start value bounds the result and the upper clamp at 100 is
never reached. -/
theorem C9_operability_le_75 (z vol dd : ℚ) (cost_bps : ℤ)
    (hc : 0 ≤ cost_bps) : RegimeEngine.operability z vol dd cost_bps ≤ 75 := by
  unfold RegimeEngine.operability
  have h1 : 0 ≤ pytrunc (|z| * 7) :=
    pytrunc_nonneg (by positivity)
  have h2 : 0 ≤ pytrunc (max 0 (vol - 25)) :=
    pytrunc_nonneg (le_max_left _ _)
  have h3 : 0 ≤ pytrunc (|dd| * 120) :=
    pytrunc_nonneg (by positivity)
  have h4 : 0 ≤ pytrunc ((cost_bps : ℚ) * (8/10)) :=
    pytrunc_nonneg (by positivity)
  apply pytrunc_le_of_le (clamp_mem (by norm_num)).1
  apply clamp_le_of_le (by norm_num)
  have hz : (75 - pytrunc (|z| * 7) - pytrunc (max 0 (vol - 25)) -
      pytrunc (|dd| * 120) - pytrunc ((cost_bps : ℚ) * (8/10)) : ℤ) ≤ 75 := by
    omega
  exact_mod_cast hz

/-- Witness for C9: a concrete row with cost 5 bps. -/
theorem C9_operability_le_75_witness :
    (0 : ℤ) ≤ 5 ∧ RegimeEngine.operability 1 30 (-1/10) 5 ≤ 75 :=
  ⟨by decide, C9_operability_le_75 1 30 (-1/10) 5 (by decide)⟩

/-! ## C4: the operability procedure -/

/-- Counterexample to C4: at `z = 1/2` (all other inputs zero) the code
computes `75 - int(3.5) = 72`, while the spec's procedure — truncating the
running score after each subtraction — gives `trunc(75 - 3.5) = 71`. -/
theorem C4_counterexample :
    RegimeEngine.operability (1/2) 0 0 0 = 72 ∧
    RegimeEngine.specOperability (1/2) 0 0 0 = 71 ∧
    RegimeEngine.specOperability (1/2) 0 0 0 ≠ RegimeEngine.operability (1/2) 0 0 0 := by
  have h1 : RegimeEngine.operability (1/2) 0 0 0 = 72 := by
    simp only [RegimeEngine.operability, pytrunc_eq_floor_or_ceil, Atlas.clamp]
    norm_num [abs_of_nonneg, min_def, max_def]
  have h2 : RegimeEngine.specOperability (1/2) 0 0 0 = 71 := by
    simp only [RegimeEngine.specOperability, pytrunc_eq_floor_or_ceil, Atlas.clamp]
    norm_num [abs_of_nonneg, min_def, max_def]
  exact ⟨h1, h2, by rw [h1, h2]; decide⟩

theorem pytrunc_clamp_int (s : ℤ) :
    pytrunc (Atlas.clamp (s : ℚ) 0 100) = max 0 (min 100 s) := by
  have h : Atlas.clamp ((s : ℤ) : ℚ) 0 100 = ((max 0 (min 100 s) : ℤ) : ℚ) := by
    unfold Atlas.clamp
    push_cast
    rfl
  rw [h, pytrunc_intCast]

/-- Claim C4 as amended: the operability score equals the value obtained by
starting at 75 and subtracting, in order, the truncations toward zero of
7×|z|, max(0, VolAnn−25), 120×|Drawdown| and 0.8×cost_bps (the subtracted
term is truncated to an integer, not the running score), finally clamping
the integer result to [0,100]. -/
theorem C4_operability_amended (z vol dd : ℚ) (cost_bps : ℤ) :
    RegimeEngine.operability z vol dd cost_bps =
      RegimeEngine.amendedOperability z vol dd cost_bps := by
  unfold RegimeEngine.operability RegimeEngine.amendedOperability
  dsimp only
  rw [mul_comm |z| 7, mul_comm |dd| 120, mul_comm ((cost_bps : ℚ)) (8/10)]
  exact pytrunc_clamp_int _

/-! ## C1: the verdict cascade -/

/-- Counterexample to C1: with the cost block active, operability 0 (< 35)
and final score 0 (< 40), the reasons list contains only `COST_BLOCK` — the
applicable `OPERABILITY_LOW` and `SCORE_LOW` codes are not accumulated,
because rules 7 and 8 skip their `append` when the status is already
BLOQUEIO. -/
theorem C1_counterexample :
    (VerdictEngine.decide ⟨"TRANSITION", 10, 0, 0⟩ true 0 0 50 (-10) 25).reasons
        = ["COST_BLOCK"] ∧
      "OPERABILITY_LOW" ∉
        (VerdictEngine.decide ⟨"TRANSITION", 10, 0, 0⟩ true 0 0 50 (-10) 25).reasons ∧
      "SCORE_LOW" ∉
        (VerdictEngine.decide ⟨"TRANSITION", 10, 0, 0⟩ true 0 0 50 (-10) 25).reasons := by
  have hs : strContains "TRANSITION" "STRESS" = false := by decide
  have hv : strContains "TRANSITION" "VOL" = false := by decide
  have h : (VerdictEngine.decide ⟨"TRANSITION", 10, 0, 0⟩ true 0 0 50 (-10) 25).reasons
      = ["COST_BLOCK"] := by
    simp only [VerdictEngine.decide, hs, hv]
    norm_num
  exact ⟨h, by rw [h]; decide, by rw [h]; decide⟩

set_option maxHeartbeats 1600000 in
/-- Claim C1 as amended: the cascade is monotonic — the status only
escalates AUTHORIZED→DEFENSIVE→BLOCKED and depends only on which triggers
hold, not on evaluation order — and the reason codes of rules 1-6 accumulate
regardless of the status already reached; the rules 7-8 codes
(`OPERABILITY_LOW`, `SCORE_LOW`) are appended only when the status reached
is not BLOCKED, so under a cost block they are absent even when
operability < 35 or final_score < 40. -/
theorem C1_verdict_cascade (regime : RegimeDict) (cb : Bool)
    (ruin score sv sd rt : ℚ) :
    VerdictEngine.decide regime cb ruin score sv sd rt =
      VerdictEngine.amendedVerdict regime cb ruin score sv sd rt := by
  unfold VerdictEngine.decide VerdictEngine.amendedVerdict
  cases cb <;>
  rcases h2 : strContains regime.label "STRESS" <;>
  rcases h3 : strContains regime.label "VOL" <;>
  by_cases h4 : regime.vol > sv <;>
  by_cases h5 : regime.dd * 100 < sd <;>
  by_cases h6 : ruin > rt <;>
  by_cases h7 : regime.score < 35 <;>
  by_cases h8 : score < 40 <;>
  simp only [h2, h3, h4, h5, h6, h7, h8, if_true, if_false, Bool.false_or,
    Bool.or_false, Bool.true_or, Bool.or_true, decide_eq_true_eq] <;>
  simp [h4, h5, h6, h7, h8]

/-! ## C2: ScoreEngine.multi and the weight sum -/

/-- Counterexample to C2: a weight configuration with a negative sum
(`trend=1, meanrev=1, risk=-3`, sum −1) is not rejected — `multi` computes a
result — even though the claim requires every non-positive weight sum to
fail with a ConfigError (no such validation, and no ConfigError type, exists
in the code). -/
theorem C2_counterexample :
    (1 + 1 + (-3) : ℚ) < 0 ∧
    (ScoreEngine.multi ⟨100, 90, 80, 0, 10, 0, 0, 0⟩ 90 89 0 "TRANSITION"
      ⟨1, 1, -3⟩).isSome = true := by
  refine ⟨by norm_num, ?_⟩
  simp only [ScoreEngine.multi]
  rw [if_neg (by norm_num)]
  rfl

/-- Claim C2 as amended: `multi` performs no validation of the weights.  The
only failure mode is the uncontrolled ZeroDivisionError (modelled `none`)
raised by normalizing when the weight sum is exactly zero; every nonzero
weight sum — positive or negative — is silently used as the normalizer. -/
theorem C2_multi_amended (last : LastRow) (sma20_last sma20_prev6 : ℚ)
    (cost_bps : ℤ) (label : String) (w : Weights) :
    ScoreEngine.multi last sma20_last sma20_prev6 cost_bps label w = none ↔
      w.trend + w.meanrev + w.risk = 0 := by
  unfold ScoreEngine.multi
  by_cases h : w.trend + w.meanrev + w.risk = 0 <;> simp [h]

/-! ## C5: the daily-loss kill switch -/

/-- Claim C5: the kill switch admits an order exactly when the realized P&L
summed over the current UTC date exceeds `-(capital * max_daily_loss_pct /
100)`; otherwise it denies with a `KILL_SWITCH_DAILY_LOSS` reason embedding
both the actual P&L and the limit. -/
theorem C5_kill_switch (cfg : SafetyConfig) (ledger : List LedgerEntry)
    (today_utc : String) (capital : ℚ) :
    ((SafetyGuard.kill_switch cfg ledger today_utc capital).1 = true ↔
      -(capital * (cfg.max_daily_loss_pct / 100)) <
        SQLiteStore.daily_realized_pnl ledger today_utc) ∧
    (SQLiteStore.daily_realized_pnl ledger today_utc ≤
        -(capital * (cfg.max_daily_loss_pct / 100)) →
      SafetyGuard.kill_switch cfg ledger today_utc capital =
        (false, "KILL_SWITCH_DAILY_LOSS pnl="
          ++ fmt2 (SQLiteStore.daily_realized_pnl ledger today_utc)
          ++ " limit=" ++ fmt2 (-(capital * (cfg.max_daily_loss_pct / 100))))) := by
  unfold SafetyGuard.kill_switch
  by_cases h : SQLiteStore.daily_realized_pnl ledger today_utc ≤
      -(capital * (cfg.max_daily_loss_pct / 100))
  · simp [h, not_lt.mpr h]
  · simp [h, lt_of_not_le h]

/-- Witness for C5 at the spec's Scenario E: capital 10000, daily-loss limit
3%, one ledger row of −350 realized today, so the limit is −300 and the
denial embeds `pnl=-350.00 limit=-300.00`. -/
theorem C5_kill_switch_witness :
    SQLiteStore.daily_realized_pnl [⟨"2026-10-12T14:30:00+00:00", -350⟩]
        "2026-10-12" ≤ -(10000 * ((3 : ℚ) / 100)) ∧
      SafetyGuard.kill_switch
        ⟨"America/Sao_Paulo", (10, 0), (17, 55), (9, 45), (10, 0), (17, 45),
          (18, 0), 3⟩
        [⟨"2026-10-12T14:30:00+00:00", -350⟩] "2026-10-12" 10000 =
        (false, "KILL_SWITCH_DAILY_LOSS pnl=-350.00 limit=-300.00") := by
  have hpnl : SQLiteStore.daily_realized_pnl
      [⟨"2026-10-12T14:30:00+00:00", -350⟩] "2026-10-12" = -350 := by
    simp +decide [SQLiteStore.daily_realized_pnl]
  have hle : SQLiteStore.daily_realized_pnl
      [⟨"2026-10-12T14:30:00+00:00", -350⟩] "2026-10-12" ≤
      -(10000 * ((3 : ℚ) / 100)) := by
    rw [hpnl]; norm_num
  have h := (C5_kill_switch
    ⟨"America/Sao_Paulo", (10, 0), (17, 55), (9, 45), (10, 0), (17, 45),
      (18, 0), 3⟩
    [⟨"2026-10-12T14:30:00+00:00", -350⟩] "2026-10-12" 10000).2 hle
  rw [hpnl] at h
  have f1 : fmt2 (-350) = "-350.00" := by
    simp only [fmt2, pyround0, ratFloor_eq_floor]
    norm_num
    decide
  have f2 : fmt2 (-(10000 * ((3 : ℚ) / 100))) = "-300.00" := by
    simp only [fmt2, pyround0, ratFloor_eq_floor]
    norm_num
    decide
  rw [f1, f2] at h
  exact ⟨hle, h⟩

/-! ## C8: the ruin simulator -/

/-- Claim C8: the ruin simulator never rejects its inputs — win rate, payoff
and risk per trade are clamped into [0.01,0.99], [0.5,10.0] and [0.001,0.2]
— and the returned ruin percentage (share of simulated sequences whose
cumulative path ever drops below −0.50) always lies in [0,100].  The random
Bernoulli matrix is supplied as the explicit `outcomes` argument, so the
statement holds for every draw. -/
theorem filter_ratio_bounds (P : List Bool → Bool)
    (outcomes : List (List Bool)) (h : outcomes ≠ []) :
    0 ≤ ((outcomes.filter P).length : ℚ) / (outcomes.length : ℚ) * 100 ∧
      ((outcomes.filter P).length : ℚ) / (outcomes.length : ℚ) * 100 ≤ 100 := by
  have hlen : (0 : ℚ) < (outcomes.length : ℚ) := by
    exact_mod_cast List.length_pos.mpr h
  have hcount : ((outcomes.filter P).length : ℚ) ≤ (outcomes.length : ℚ) := by
    exact_mod_cast List.length_filter_le P outcomes
  constructor
  · positivity
  · have hdiv : ((outcomes.filter P).length : ℚ) / (outcomes.length : ℚ) ≤ 1 :=
      (div_le_one hlen).mpr hcount
    calc ((outcomes.filter P).length : ℚ) / (outcomes.length : ℚ) * 100
        ≤ 1 * 100 := by
          apply mul_le_mul_of_nonneg_right hdiv
          norm_num
      _ = 100 := by norm_num

theorem C8_monte_carlo_ruin (w p r : ℚ) (outcomes : List (List Bool))
    (h : outcomes ≠ []) :
    (1/100 ≤ (RiskEngine.monte_carlo_ruin w p r outcomes).1 ∧
      (RiskEngine.monte_carlo_ruin w p r outcomes).1 ≤ 99/100) ∧
    (1/2 ≤ (RiskEngine.monte_carlo_ruin w p r outcomes).2.1 ∧
      (RiskEngine.monte_carlo_ruin w p r outcomes).2.1 ≤ 10) ∧
    (1/1000 ≤ (RiskEngine.monte_carlo_ruin w p r outcomes).2.2.1 ∧
      (RiskEngine.monte_carlo_ruin w p r outcomes).2.2.1 ≤ 2/10) ∧
    (0 ≤ (RiskEngine.monte_carlo_ruin w p r outcomes).2.2.2 ∧
      (RiskEngine.monte_carlo_ruin w p r outcomes).2.2.2 ≤ 100) := by
  unfold RiskEngine.monte_carlo_ruin
  dsimp only
  exact ⟨clamp_mem (by norm_num), clamp_mem (by norm_num),
    clamp_mem (by norm_num), filter_ratio_bounds _ outcomes h⟩

/-- Witness for C8 on a concrete two-sequence outcome matrix. -/
theorem C8_monte_carlo_ruin_witness :
    ([[true, false], [false, false]] : List (List Bool)) ≠ [] ∧
      (0 ≤ (RiskEngine.monte_carlo_ruin (1/2) 2 (2/100)
          [[true, false], [false, false]]).2.2.2 ∧
        (RiskEngine.monte_carlo_ruin (1/2) 2 (2/100)
          [[true, false], [false, false]]).2.2.2 ≤ 100) :=
  ⟨by decide,
    (C8_monte_carlo_ruin (1/2) 2 (2/100) [[true, false], [false, false]]
      (by decide)).2.2.2⟩

/-! ## C10: the open-position check -/

/-- Claim C10: `validate` runs the open-position check on every call — there
is no configuration field that can disable it (the statement quantifies over
every `SafetyConfig`) — and whenever the broker is reachable and the
trading-time check passes, a broker position whose ticker equals the order's
ticker case-insensitively makes `validate` return `POSITION_ALREADY_OPEN`;
the result is the same for every ledger and capital, so the daily-loss kill
switch is never consulted. -/
theorem C10_position_check (broker : BrokerState) (cfg : SafetyConfig)
    (now : ClockTime) (ledger : List LedgerEntry) (today_utc ticker : String)
    (capital : ℚ)
    (hping : broker.ping = true)
    (htime : SafetyGuard.is_trading_time cfg now = (true, "OK"))
    (hpos : ∃ pt ∈ broker.open_position_tickers, pyUpper pt = pyUpper ticker) :
    SafetyGuard.validate broker cfg now ledger today_utc ticker capital =
      ⟨false, "POSITION_ALREADY_OPEN"⟩ := by
  obtain ⟨pt, hmem, hup⟩ := hpos
  have hany : broker.open_position_tickers.any
      (fun q => decide (pyUpper q = pyUpper ticker)) = true :=
    List.any_eq_true.mpr ⟨pt, hmem, decide_eq_true hup⟩
  unfold SafetyGuard.validate SafetyGuard.position_check
  rw [hping, htime]
  simp [hany]

/-! ## List lemmas for the indicator columns -/

theorem length_cumprod (xs : List ℚ) : ∀ acc : ℚ,
    (IndicatorEngine.cumprod xs acc).length = xs.length := by
  induction xs with
  | nil => intro acc; rfl
  | cons x xs ih => intro acc; simp [IndicatorEngine.cumprod, ih]

theorem length_cummaxFrom (xs : List ℚ) : ∀ acc : ℚ,
    (IndicatorEngine.cummaxFrom acc xs).length = xs.length := by
  induction xs with
  | nil => intro acc; rfl
  | cons x xs ih => intro acc; simp [IndicatorEngine.cummaxFrom, ih]

theorem length_cummax (xs : List ℚ) :
    (IndicatorEngine.cummax xs).length = xs.length := by
  cases xs with
  | nil => rfl
  | cons x xs => simp [IndicatorEngine.cummax, length_cummaxFrom]

theorem length_retFill (closes : List ℚ) :
    (IndicatorEngine.retFill closes).length = closes.length := by
  simp [IndicatorEngine.retFill]

theorem length_equityList (closes : List ℚ) :
    (IndicatorEngine.equityList closes).length = closes.length := by
  simp [IndicatorEngine.equityList, length_cumprod, length_retFill]

theorem length_peakList (closes : List ℚ) :
    (IndicatorEngine.peakList closes).length = closes.length := by
  simp [IndicatorEngine.peakList, length_cummax, length_equityList]

theorem le_cummaxFrom_acc (xs : List ℚ) : ∀ (acc : ℚ) (i : ℕ),
    i < xs.length → acc ≤ (IndicatorEngine.cummaxFrom acc xs).getD i 0 := by
  induction xs with
  | nil => intro acc i h; exact absurd h (by simp)
  | cons x xs ih =>
    intro acc i h
    cases i with
    | zero => exact le_max_left acc x
    | succ j =>
      have hj : j < xs.length := by simpa using h
      exact (le_max_left acc x).trans (ih (max acc x) j hj)

theorem getD_le_cummaxFrom (xs : List ℚ) : ∀ (acc : ℚ) (i : ℕ),
    i < xs.length →
    xs.getD i 0 ≤ (IndicatorEngine.cummaxFrom acc xs).getD i 0 := by
  induction xs with
  | nil => intro acc i h; exact absurd h (by simp)
  | cons x xs ih =>
    intro acc i h
    cases i with
    | zero => exact le_max_right acc x
    | succ j =>
      have hj : j < xs.length := by simpa using h
      exact ih (max acc x) j hj

theorem getD_le_cummax (xs : List ℚ) (i : ℕ) (h : i < xs.length) :
    xs.getD i 0 ≤ (IndicatorEngine.cummax xs).getD i 0 := by
  cases xs with
  | nil => exact absurd h (by simp)
  | cons x xs =>
    cases i with
    | zero => exact le_refl x
    | succ j =>
      have hj : j < xs.length := by simpa using h
      exact getD_le_cummaxFrom xs x j hj

theorem headD_le_cummax (xs : List ℚ) (i : ℕ) (h : i < xs.length) :
    xs.headD 0 ≤ (IndicatorEngine.cummax xs).getD i 0 := by
  cases xs with
  | nil => exact absurd h (by simp)
  | cons x xs =>
    cases i with
    | zero => exact le_refl x
    | succ j =>
      have hj : j < xs.length := by simpa using h
      exact le_cummaxFrom_acc xs x j hj

theorem equityList_headD (closes : List ℚ) (h : closes ≠ []) :
    (IndicatorEngine.equityList closes).headD 0 = 1 := by
  obtain ⟨c, cs, rfl⟩ := List.exists_cons_of_ne_nil h
  simp [IndicatorEngine.equityList, IndicatorEngine.retFill,
    IndicatorEngine.cumprod, List.range_succ_eq_map]

theorem one_le_peakList_getD (closes : List ℚ) (i : ℕ)
    (h : i < closes.length) : 1 ≤ (IndicatorEngine.peakList closes).getD i 0 := by
  have hne : closes ≠ [] := by
    intro hnil
    rw [hnil] at h
    exact absurd h (by simp)
  have h' : i < (IndicatorEngine.equityList closes).length := by
    rw [length_equityList]; exact h
  calc (1 : ℚ) = (IndicatorEngine.equityList closes).headD 0 :=
        (equityList_headD closes hne).symm
    _ ≤ (IndicatorEngine.peakList closes).getD i 0 :=
        headD_le_cummax (IndicatorEngine.equityList closes) i h'

theorem equity_le_peak_getD (closes : List ℚ) (i : ℕ)
    (h : i < closes.length) :
    (IndicatorEngine.equityList closes).getD i 0 ≤
      (IndicatorEngine.peakList closes).getD i 0 := by
  have h' : i < (IndicatorEngine.equityList closes).length := by
    rw [length_equityList]; exact h
  exact getD_le_cummax (IndicatorEngine.equityList closes) i h'

theorem drawdownF_nonpos (closes : List ℚ) (i : ℕ) (h : i < closes.length) :
    IndicatorEngine.drawdownF closes i ≤ 0 := by
  unfold IndicatorEngine.drawdownF
  have hep := equity_le_peak_getD closes i h
  have hp1 := one_le_peakList_getD closes i h
  have hnum : (IndicatorEngine.equityList closes).getD i 0 -
      (IndicatorEngine.peakList closes).getD i 0 ≤ 0 := sub_nonpos.mpr hep
  have hden : (0 : ℚ) ≤ (IndicatorEngine.peakList closes).getD i 0 := by linarith
  exact div_nonpos_iff.mpr (Or.inr ⟨hnum, hden⟩)

/-! ## C7: Drawdown is never positive -/

/-- Claim C7: for any input bar series (positive prices), every retained
output row satisfies `Equity ≤ Peak` and `Drawdown ≤ 0`: the cumulative
equity (product of 1+ret with the first return treated as 0) starts at 1 and
never exceeds its running peak, so `(Equity − Peak)/Peak` is non-positive. -/
theorem C7_drawdown_nonpos (sqrtA logA : ℚ → ℚ) (df : BarFrame)
    (closes : List ℚ) (hsome : df.close_final = some closes)
    (hpos : ∀ c ∈ closes, 0 < c) :
    ∀ r ∈ (IndicatorEngine.calculate sqrtA logA df).toOption.getD [],
      r.Equity ≤ r.Peak ∧ r.Drawdown ≤ 0 := by
  intro r hr
  unfold IndicatorEngine.calculate at hr
  rw [hsome] at hr
  simp only [Except.toOption, Option.getD] at hr
  have hr' := List.mem_of_mem_filter hr
  obtain ⟨i, hi, rfl⟩ := List.mem_map.mp hr'
  have hi' : i < closes.length := List.mem_range.mp hi
  constructor
  · show (IndicatorEngine.equityList closes).getD i 0 ≤
      (IndicatorEngine.peakList closes).getD i 0
    exact equity_le_peak_getD closes i hi'
  · show IndicatorEngine.drawdownF closes i ≤ 0
    exact drawdownF_nonpos closes i hi'

/-- Witness for C7: three positive bars. -/
theorem C7_drawdown_nonpos_witness :
    (⟨[1, 2, 1], [1, 2, 1], [1, 2, 1], [1, 2, 1], [1, 2, 1],
        some [1, 2, 1]⟩ : BarFrame).close_final = some [1, 2, 1] ∧
      (∀ c ∈ ([1, 2, 1] : List ℚ), 0 < c) ∧
      ∀ r ∈ (IndicatorEngine.calculate id id
          ⟨[1, 2, 1], [1, 2, 1], [1, 2, 1], [1, 2, 1], [1, 2, 1],
            some [1, 2, 1]⟩).toOption.getD [],
        r.Equity ≤ r.Peak ∧ r.Drawdown ≤ 0 := by
  have hpos : ∀ c ∈ ([1, 2, 1] : List ℚ), 0 < c := by
    intro c hc
    rcases List.mem_cons.mp hc with rfl | hc
    · norm_num
    rcases List.mem_cons.mp hc with rfl | hc
    · norm_num
    rcases List.mem_cons.mp hc with rfl | hc
    · norm_num
    · exact absurd hc (by simp)
  exact ⟨rfl, hpos, C7_drawdown_nonpos id id _ [1, 2, 1] rfl hpos⟩

/-! ## C3: missing close column vs insufficient history -/

/-- Claim C3: `calculate` fails (with the DataError for the missing
close-equivalent column) exactly when the input frame has no `close_final`
column; when the column exists the computation always succeeds — short
history never raises — and merely yields an undersized output, empty
whenever fewer than 60 bars are supplied (every row then still lies in the
warm-up window of the 60-bar rolling columns and is dropped). -/
theorem C3_data_error_and_short_history (sqrtA logA : ℚ → ℚ) (df : BarFrame) :
    (df.close_final = none →
      IndicatorEngine.calculate sqrtA logA df =
        .error DataError.missing_close_column) ∧
    (∀ closes, df.close_final = some closes →
      ∃ rows, IndicatorEngine.calculate sqrtA logA df = .ok rows ∧
        rows.length ≤ closes.length ∧
        (closes.length < 60 → rows = [])) := by
  constructor
  · intro h
    unfold IndicatorEngine.calculate
    rw [h]
  · intro closes h
    unfold IndicatorEngine.calculate
    rw [h]
    refine ⟨_, rfl, ?_, ?_⟩
    · exact (List.length_filter_le _ _).trans (by simp)
    · intro hlt
      apply List.filter_eq_nil_iff.mpr
      intro r hr
      obtain ⟨i, hi, rfl⟩ := List.mem_map.mp hr
      have hi' : i < closes.length := List.mem_range.mp hi
      have hskew : (IndicatorEngine.mkRow sqrtA logA df closes i).Skew60 = none := by
        unfold IndicatorEngine.mkRow
        dsimp only
        unfold IndicatorEngine.roll IndicatorEngine.rollingApply
        rw [if_neg]
        omega
      simp [IndicatorEngine.rowComplete, hskew]

/-- Witness for C3: a frame without the close column errors; a one-bar frame
with the column yields the empty row set. -/
theorem C3_data_error_and_short_history_witness :
    IndicatorEngine.calculate id id ⟨[], [], [], [], [], none⟩ =
        .error DataError.missing_close_column ∧
      IndicatorEngine.calculate id id ⟨[1], [1], [1], [1], [1], some [1]⟩ =
        .ok [] := by
  have h1 := (C3_data_error_and_short_history id id
    ⟨[], [], [], [], [], none⟩).1 rfl
  obtain ⟨rows, hok, _, hempty⟩ := (C3_data_error_and_short_history id id
    ⟨[1], [1], [1], [1], [1], some [1]⟩).2 [1] rfl
  refine ⟨h1, ?_⟩
  rw [hok, hempty (by decide)]

/-- Witness for C10: midday clock, reachable broker holding `petr4`, order
for `PETR4`. -/
theorem C10_position_check_witness :
    (⟨true, ["petr4"]⟩ : BrokerState).ping = true ∧
      SafetyGuard.is_trading_time
        ⟨"America/Sao_Paulo", (10, 0), (17, 55), (9, 45), (10, 0), (17, 45),
          (18, 0), 3⟩ ⟨12, 30, 0⟩ = (true, "OK") ∧
      (∃ pt ∈ (⟨true, ["petr4"]⟩ : BrokerState).open_position_tickers,
        pyUpper pt = pyUpper "PETR4") ∧
      SafetyGuard.validate ⟨true, ["petr4"]⟩
        ⟨"America/Sao_Paulo", (10, 0), (17, 55), (9, 45), (10, 0), (17, 45),
          (18, 0), 3⟩ ⟨12, 30, 0⟩ [] "2026-10-12" "PETR4" 10000 =
        ⟨false, "POSITION_ALREADY_OPEN"⟩ := by
  refine ⟨rfl, by decide, ⟨"petr4", by decide, by decide⟩, ?_⟩
  exact C10_position_check ⟨true, ["petr4"]⟩
    ⟨"America/Sao_Paulo", (10, 0), (17, 55), (9, 45), (10, 0), (17, 45),
      (18, 0), 3⟩ ⟨12, 30, 0⟩ [] "2026-10-12" "PETR4" 10000 rfl (by decide)
    ⟨"petr4", by decide, by decide⟩
